import Mathlib

-- A shallow embedding of src/downloader.py (SA-1B-Fast-Downloader).
-- Bytes are natural numbers and an on-disk file is a list of bytes.  The HTTP
-- layer is modelled by exactly the data the script consumes: the status code,
-- the optional Content-Length header value, and the streamed chunk sequence.

namespace Downloader

/-- Result of one `download_file` call (downloader.py lines 24-88): normal
return after a size-verified stream (line 79), the 416 "already completed"
return (line 83), or a raised exception carrying its message (lines 81, 85). -/
inductive Outcome where
  | completed
  | alreadyComplete
  | failed (reason : String)
deriving Repr, DecidableEq

/-- The data of an HTTP response consumed by `download_file` (downloader.py
lines 47-74): status code, optional declared `Content-Length`, and the chunk
sequence produced by `iter_content`. -/
structure HttpResponse where
  status : Nat
  contentLength : Option Nat
  chunks : List (List Nat)
deriving Repr, DecidableEq

/-- The request data `download_file` sends: the optional `Range: bytes=<n>-`
start offset (downloader.py lines 42-44). -/
structure HttpRequest where
  rangeStart : Option Nat
deriving Repr, DecidableEq

/-- File-open mode chosen at downloader.py line 49. -/
inductive FileMode where
  | wb
  | ab
deriving Repr, DecidableEq

/-- downloader.py lines 42-44: the `Range` header start offset is set exactly
when some bytes are already on disk, and it starts at `current_size`. -/
def mkHeaders (current_size : Nat) : Option Nat :=
  if current_size > 0 then some current_size else none

/-- downloader.py line 49: `mode = 'ab' if current_size > 0 else 'wb'`. -/
def openMode (current_size : Nat) : FileMode :=
  if current_size > 0 then FileMode.ab else FileMode.wb

/-- downloader.py lines 52-56: when the `Content-Length` header is present,
`total_size = int(total_size) + current_size`; otherwise the total is unknown.
Note that the script adds `current_size` for every 200/206 response, without
looking at the status code. -/
def total_size_code (contentLength : Option Nat) (current_size : Nat) : Option Nat :=
  contentLength.map (fun cl => cl + current_size)

/-- downloader.py lines 70-74: the streaming loop writes every non-empty chunk
after the bytes already in the opened file (empty keep-alive chunks are
filtered out). -/
def writeChunks (init : List Nat) (chunks : List (List Nat)) : List Nat :=
  init ++ (chunks.filter (fun c => c ≠ [])).flatten

/-- downloader.py lines 49 and 70-74: the file contents after streaming the
body, opened in the mode of line 49 ('ab' keeps the current bytes, 'wb'
truncates). -/
def streamBody (response : HttpResponse) (file : List Nat) : List Nat :=
  match openMode file.length with
  | FileMode.ab => writeChunks file response.chunks
  | FileMode.wb => writeChunks [] response.chunks

/-- downloader.py lines 48-88, processing the received response against the
current file (whose length is the `current_size` of line 40): branch on the
status code, stream the body, re-read the on-disk size (line 76) and classify
the outcome (lines 77-85).  Returns the outcome paired with the final on-disk
file. -/
def download_file_response (response : HttpResponse) (file : List Nat) :
    Outcome × List Nat :=
  if response.status = 200 ∨ response.status = 206 then
    match total_size_code response.contentLength file.length with
    | some t =>
      if t ≤ (streamBody response file).length then
        (Outcome.completed, streamBody response file)
      else
        (Outcome.failed "Unexcepted exit", streamBody response file)
    | none => (Outcome.completed, streamBody response file)
  else if response.status = 416 then
    (Outcome.alreadyComplete, file)
  else
    (Outcome.failed "Failed to download file", file)

/-- downloader.py lines 40-47: compute `current_size` from the on-disk file,
issue the (possibly ranged) request against the given server, and process the
response. -/
def download_file (server : HttpRequest → HttpResponse) (file : List Nat) :
    Outcome × List Nat :=
  download_file_response (server { rangeStart := mkHeaders file.length }) file

/-- Modelled from the spec (the wording of claim C3): a total size that adds
`current_size` only for a 206 response, taking the declared length alone for a
200 response.  Stated for comparison with `total_size_code`. -/
def total_size_claimed (status : Nat) (contentLength : Option Nat)
    (current_size : Nat) : Option Nat :=
  contentLength.map (fun cl => if status = 206 then cl + current_size else cl)

/-- Modelled from the spec (the wording of claim C3): `download_file_response`
with the total size computed by `total_size_claimed` instead of
`total_size_code`. -/
def download_file_claimed (response : HttpResponse) (file : List Nat) :
    Outcome × List Nat :=
  if response.status = 200 ∨ response.status = 206 then
    match total_size_claimed response.status response.contentLength file.length with
    | some t =>
      if t ≤ (streamBody response file).length then
        (Outcome.completed, streamBody response file)
      else
        (Outcome.failed "Unexcepted exit", streamBody response file)
    | none => (Outcome.completed, streamBody response file)
  else if response.status = 416 then
    (Outcome.alreadyComplete, file)
  else
    (Outcome.failed "Failed to download file", file)


/-- The whitespace characters removed by Python's `str.strip()`. -/
def isPySpace (c : Char) : Bool :=
  c = ' ' || c = '\t' || c = '\n' || c = '\r' || c = '\x0b' || c = '\x0c'

/-- Python's `str.strip()`: drop whitespace from both ends, modelled on the
character list of the string. -/
def pyStrip (s : String) : String :=
  String.mk (((s.data.dropWhile isPySpace).reverse.dropWhile isPySpace).reverse)

/-- Python's `str.endswith(pat)`: the pattern's characters are a suffix of the
string's characters. -/
def pyEndsWith (s pat : String) : Bool :=
  List.isSuffixOf pat.data s.data

/-- Lexicographic code-point comparison of character lists, as Python's `<=`
on strings (used by `sorted`). -/
def charListLE : List Char → List Char → Bool
  | [], _ => true
  | _ :: _, [] => false
  | a :: as, b :: bs =>
    if a.toNat < b.toNat then true
    else if b.toNat < a.toNat then false
    else charListLE as bs

/-- Python's `<=` on strings. -/
def pyLE (a b : String) : Bool :=
  charListLE a.data b.data

/-- downloader.py line 137: strip every retry-file line and drop the blank
ones. -/
def cleanLines (lines : List String) : List String :=
  (lines.map pyStrip).filter (fun l => l ≠ "")

/-- downloader.py lines 147-154, the yield side of the generator's final loop:
for each selected target, look its URL up in the manifest and yield the
`(target, url)` pair when the URL is truthy (present and non-empty); targets
with no truthy URL produce nothing here. -/
def yieldTasks (map2url : List (String × String)) : List String → List (String × String)
  | [] => []
  | tar :: rest =>
    match List.lookup tar map2url with
    | some url =>
      if url = "" then yieldTasks map2url rest
      else (tar, url) :: yieldTasks map2url rest
    | none => yieldTasks map2url rest

/-- downloader.py lines 151-154, the warning side of the generator's final
loop: the targets reported with "No URL found" (URL absent, or empty and hence
falsy), in order. -/
def yieldWarnings (map2url : List (String × String)) : List String → List String
  | [] => []
  | tar :: rest =>
    match List.lookup tar map2url with
    | some url =>
      if url = "" then tar :: yieldWarnings map2url rest
      else yieldWarnings map2url rest
    | none => tar :: yieldWarnings map2url rest

/-- downloader.py lines 128-145: the `to_downloads` list.  With no retry file
(`none`), or a retry file whose stripped non-blank lines are empty, it is the
sorted manifest keys restricted to `.tar` names; otherwise it is the stripped
non-blank retry lines in file order. -/
def to_downloads (retry_file : Option (List String))
    (map2url : List (String × String)) : List String :=
  match retry_file with
  | none =>
    ((map2url.map Prod.fst).insertionSort (fun a b => pyLE a b = true)).filter
      (fun tar => pyEndsWith tar ".tar")
  | some lines =>
    if cleanLines lines = [] then
      ((map2url.map Prod.fst).insertionSort (fun a b => pyLE a b = true)).filter
        (fun tar => pyEndsWith tar ".tar")
    else cleanLines lines

/-- downloader.py lines 117-154: the sequence of `(target, url)` pairs yielded
by the generator `iterate_retry`.  `retry_file` is `none` when the retry file
does not exist, `some lines` for its raw lines otherwise; `map2url` is the
manifest as an association list with the keys unique (a Python dict). -/
def iterate_retry (retry_file : Option (List String))
    (map2url : List (String × String)) : List (String × String) :=
  yieldTasks map2url (to_downloads retry_file map2url)

/-- downloader.py lines 117-154: the targets for which the same generator run
prints the "No URL found" warning. -/
def iterate_retry_warnings (retry_file : Option (List String))
    (map2url : List (String × String)) : List String :=
  yieldWarnings map2url (to_downloads retry_file map2url)

/-- Result of one `download_file` call as seen by the retry loop of
`download_task` (downloader.py lines 173-176): either the call returns
normally or it raises. -/
inductive AttemptResult where
  | success
  | failure
deriving Repr, DecidableEq

/-- Observable trace of one `download_task` call (downloader.py lines
157-186): how many `download_file` attempts were made, the sleep durations in
order (in seconds, exact rationals), how many lines were appended to
`failed_downloads.txt`, and whether the loop exited through the success
break. -/
structure TaskTrace where
  attempts : Nat
  sleeps : List ℚ
  logAppends : Nat
  succeeded : Bool
deriving Repr, DecidableEq

/-- The retry loop of `download_task` (downloader.py lines 171-186).  The loop
variable `retries` counts failures so far, and `fuel = max_retries - retries`
counts the retries still allowed, so the iteration at `fuel = 0` is the one in
which a further failure makes `retries > max_retries`, appends the target to
`failed_downloads.txt` and breaks.  `o n` is the result of the (n+1)-th
`download_file` call; the sleep before re-attempting after the (n+1)-th
failure is `backoff_factor * 2 ^ n` (line 184, with the incremented
`retries`). -/
def download_task_go (o : Nat → AttemptResult) (backoff_factor : ℚ)
    (retries : Nat) : Nat → TaskTrace
  | 0 =>
    match o retries with
    | AttemptResult.success =>
      { attempts := 1, sleeps := [], logAppends := 0, succeeded := true }
    | AttemptResult.failure =>
      { attempts := 1, sleeps := [], logAppends := 1, succeeded := false }
  | fuel + 1 =>
    match o retries with
    | AttemptResult.success =>
      { attempts := 1, sleeps := [], logAppends := 0, succeeded := true }
    | AttemptResult.failure =>
      let rest := download_task_go o backoff_factor (retries + 1) fuel
      { attempts := rest.attempts + 1
        sleeps := backoff_factor * 2 ^ retries :: rest.sleeps
        logAppends := rest.logAppends
        succeeded := rest.succeeded }

/-- `download_task` (downloader.py lines 157-186) as a function of the
per-attempt results: the loop starts at `retries = 0` with `max_retries`
retries still allowed. -/
def download_task (o : Nat → AttemptResult) (max_retries : Nat)
    (backoff_factor : ℚ) : TaskTrace :=
  download_task_go o backoff_factor 0 max_retries

/-- One modelled `download_file` call as an exception-raising computation:
`failure` is a raised exception carrying a message. -/
def download_file_exc (o : Nat → AttemptResult) (n : Nat) : Except String Unit :=
  match o n with
  | AttemptResult.success => Except.ok ()
  | AttemptResult.failure => Except.error "download error"

/-- The retry loop of `download_task` with exception propagation made
explicit: the body of the loop (downloader.py lines 173-186) wraps the
`download_file` call in try/except, and every branch of the except handler
returns instead of re-raising, so every path produces `Except.ok`.  An
uncaught exception would surface here as `Except.error`. -/
def download_task_exc (o : Nat → AttemptResult) (backoff_factor : ℚ)
    (retries : Nat) : Nat → Except String TaskTrace
  | 0 =>
    match download_file_exc o retries with
    | Except.ok _ =>
      Except.ok { attempts := 1, sleeps := [], logAppends := 0, succeeded := true }
    | Except.error _ =>
      Except.ok { attempts := 1, sleeps := [], logAppends := 1, succeeded := false }
  | fuel + 1 =>
    match download_file_exc o retries with
    | Except.ok _ =>
      Except.ok { attempts := 1, sleeps := [], logAppends := 0, succeeded := true }
    | Except.error _ =>
      match download_task_exc o backoff_factor (retries + 1) fuel with
      | Except.ok rest =>
        Except.ok { attempts := rest.attempts + 1
                    sleeps := backoff_factor * 2 ^ retries :: rest.sleeps
                    logAppends := rest.logAppends
                    succeeded := rest.succeeded }
      | Except.error e => Except.error e

instance : IsTotal String (fun a b => pyLE a b = true) := by
  constructor
  intro a b
  show charListLE a.data b.data = true ∨ charListLE b.data a.data = true
  generalize a.data = xs
  generalize b.data = ys
  induction xs generalizing ys with
  | nil => left; rfl
  | cons x xs ih =>
    cases ys with
    | nil => right; rfl
    | cons y ys =>
      by_cases h1 : x.toNat < y.toNat
      · left; simp [charListLE, h1]
      · by_cases h2 : y.toNat < x.toNat
        · right; simp [charListLE, h1, h2]
        · rcases ih ys with h | h
          · left; simp [charListLE, h1, h2, h]
          · right; simp [charListLE, h1, h2, h]

instance : IsTrans String (fun a b => pyLE a b = true) := by
  constructor
  intro a b c
  show charListLE a.data b.data = true → charListLE b.data c.data = true →
    charListLE a.data c.data = true
  generalize a.data = xs
  generalize b.data = ys
  generalize c.data = zs
  induction xs generalizing ys zs with
  | nil => intro _ _; rfl
  | cons x xs ih =>
    intro hab hbc
    cases ys with
    | nil => simp [charListLE] at hab
    | cons y ys =>
      cases zs with
      | nil => simp [charListLE] at hbc
      | cons z zs =>
        simp only [charListLE] at hab hbc ⊢
        by_cases hxy : x.toNat < y.toNat
        · by_cases hyz : y.toNat < z.toNat
          · simp [show x.toNat < z.toNat from by omega]
          · by_cases hzy : z.toNat < y.toNat
            · rw [if_neg hyz, if_pos hzy] at hbc
              exact absurd hbc (by simp)
            · simp [show x.toNat < z.toNat from by omega]
        · by_cases hyx : y.toNat < x.toNat
          · rw [if_neg hxy, if_pos hyx] at hab
            exact absurd hab (by simp)
          · by_cases hyz : y.toNat < z.toNat
            · simp [show x.toNat < z.toNat from by omega]
            · by_cases hzy : z.toNat < y.toNat
              · rw [if_neg hyz, if_pos hzy] at hbc
                exact absurd hbc (by simp)
              · rw [if_neg hxy, if_neg hyx] at hab
                rw [if_neg hyz, if_neg hzy] at hbc
                rw [if_neg (show ¬ x.toNat < z.toNat from by omega),
                    if_neg (show ¬ z.toNat < x.toNat from by omega)]
                exact ih ys zs hab hbc

/-- The final on-disk file after a 200/206 response is the streamed body,
whatever the outcome classification says. -/
lemma snd_download_file_response_ok (response : HttpResponse) (file : List Nat)
    (h : response.status = 200 ∨ response.status = 206) :
    (download_file_response response file).2 = streamBody response file := by
  unfold download_file_response
  rw [if_pos h]
  split
  · split <;> rfl
  · rfl

/-- The loop makes at most `fuel + 1` attempts. -/
lemma download_task_go_attempts_le (o : Nat → AttemptResult) (b : ℚ) :
    ∀ fuel r, (download_task_go o b r fuel).attempts ≤ fuel + 1 := by
  intro fuel
  induction fuel with
  | zero =>
    intro r
    cases h : o r <;> simp [download_task_go, h]
  | succ n ih =>
    intro r
    cases h : o r <;> simp [download_task_go, h]
    exact ih (r + 1)

/-- The i-th sleep recorded by the loop started at `retries = r` is
`b * 2 ^ (r + i)`. -/
lemma download_task_go_sleeps_get? (o : Nat → AttemptResult) (b : ℚ) :
    ∀ fuel r i, i < (download_task_go o b r fuel).sleeps.length →
      (download_task_go o b r fuel).sleeps.get? i = some (b * 2 ^ (r + i)) := by
  intro fuel
  induction fuel with
  | zero =>
    intro r i h
    exfalso
    cases ho : o r <;> simp [download_task_go, ho] at h
  | succ n ih =>
    intro r i h
    cases ho : o r with
    | success =>
      exfalso
      simp [download_task_go, ho] at h
    | failure =>
      simp only [download_task_go, ho] at h ⊢
      cases i with
      | zero => simp
      | succ i =>
        rw [List.get?_cons_succ]
        have h2 : i < (download_task_go o b (r + 1) n).sleeps.length := by
          simp at h
          omega
        rw [ih (r + 1) i h2, show r + 1 + i = r + (i + 1) from by omega]

/-- If the first success is the (k+1)-th attempt and happens within the
budget, the loop stops right after it with `k + 1` attempts made. -/
lemma download_task_go_first_success (o : Nat → AttemptResult) (b : ℚ) :
    ∀ fuel r k, k ≤ fuel → o (r + k) = AttemptResult.success →
      (∀ j, j < k → o (r + j) = AttemptResult.failure) →
      (download_task_go o b r fuel).attempts = k + 1
        ∧ (download_task_go o b r fuel).succeeded = true := by
  intro fuel
  induction fuel with
  | zero =>
    intro r k hk hs _
    interval_cases k
    simp only [Nat.add_zero] at hs
    simp [download_task_go, hs]
  | succ n ih =>
    intro r k hk hs hf
    cases k with
    | zero =>
      simp only [Nat.add_zero] at hs
      simp [download_task_go, hs]
    | succ k =>
      have h0 : o r = AttemptResult.failure := by
        have := hf 0 (Nat.succ_pos k)
        simpa using this
      have hrec := ih (r + 1) k (by omega)
        (by rw [show r + 1 + k = r + (k + 1) from by omega]; exact hs)
        (by intro j hj
            rw [show r + 1 + j = r + (j + 1) from by omega]
            exact hf (j + 1) (by omega))
      simp [download_task_go, h0, hrec.1, hrec.2]

/-- If every attempt within the budget fails, the loop uses the whole budget,
appends to the failure log exactly once, and does not succeed. -/
lemma download_task_go_all_fail (o : Nat → AttemptResult) (b : ℚ) :
    ∀ fuel r, (∀ j, j ≤ r + fuel → o j = AttemptResult.failure) →
      (download_task_go o b r fuel).attempts = fuel + 1
        ∧ (download_task_go o b r fuel).logAppends = 1
        ∧ (download_task_go o b r fuel).succeeded = false := by
  intro fuel
  induction fuel with
  | zero =>
    intro r hfail
    have h0 : o r = AttemptResult.failure := hfail r (by omega)
    simp [download_task_go, h0]
  | succ n ih =>
    intro r hfail
    have h0 : o r = AttemptResult.failure := hfail r (by omega)
    have hrec := ih (r + 1) (by intro j hj; exact hfail j (by omega))
    simp [download_task_go, h0, hrec.1, hrec.2.1, hrec.2.2]

/-- The explicit-exception loop always returns `ok`, with the same trace as
the pure model. -/
lemma download_task_exc_ok (o : Nat → AttemptResult) (b : ℚ) :
    ∀ fuel r, download_task_exc o b r fuel
      = Except.ok (download_task_go o b r fuel) := by
  intro fuel
  induction fuel with
  | zero =>
    intro r
    cases h : o r <;> simp [download_task_exc, download_task_go, download_file_exc, h]
  | succ n ih =>
    intro r
    cases h : o r <;>
      simp [download_task_exc, download_task_go, download_file_exc, h, ih (r + 1)]

/-- The targets of the yielded pairs form a sublist (in particular a
subsequence, in order) of the selected identifiers. -/
lemma yieldTasks_map_fst_sublist (M : List (String × String)) :
    ∀ ts, List.Sublist ((yieldTasks M ts).map Prod.fst) ts := by
  intro ts
  induction ts with
  | nil => simp [yieldTasks]
  | cons t rest ih =>
    cases h : List.lookup t M with
    | none =>
      simp only [yieldTasks, h]
      exact ih.cons t
    | some url =>
      by_cases hu : url = ""
      · simp only [yieldTasks, h, if_pos hu]
        exact ih.cons t
      · simp only [yieldTasks, h, if_neg hu, List.map_cons]
        exact ih.cons₂ t

/-- Membership of the yielded pairs: a pair is yielded iff its target was
selected and the manifest maps it to that (non-empty) URL. -/
lemma mem_yieldTasks (M : List (String × String)) (k u : String) :
    ∀ ts, (k, u) ∈ yieldTasks M ts ↔
      k ∈ ts ∧ List.lookup k M = some u ∧ u ≠ "" := by
  intro ts
  induction ts with
  | nil => simp [yieldTasks]
  | cons t rest ih =>
    cases h : List.lookup t M with
    | none =>
      rw [show yieldTasks M (t :: rest) = yieldTasks M rest from by
        simp [yieldTasks, h]]
      rw [ih]
      simp only [List.mem_cons]
      constructor
      · rintro ⟨h1, h2, h3⟩
        exact ⟨Or.inr h1, h2, h3⟩
      · rintro ⟨h1 | h1, h2, h3⟩
        · subst h1
          rw [h] at h2
          exact Option.noConfusion h2
        · exact ⟨h1, h2, h3⟩
    | some url =>
      by_cases hu : url = ""
      · rw [show yieldTasks M (t :: rest) = yieldTasks M rest from by
          simp [yieldTasks, h, hu]]
        rw [ih]
        simp only [List.mem_cons]
        constructor
        · rintro ⟨h1, h2, h3⟩
          exact ⟨Or.inr h1, h2, h3⟩
        · rintro ⟨h1 | h1, h2, h3⟩
          · subst h1
            rw [h] at h2
            injection h2 with h2
            subst h2
            exact absurd hu h3
          · exact ⟨h1, h2, h3⟩
      · rw [show yieldTasks M (t :: rest) = (t, url) :: yieldTasks M rest from by
          simp [yieldTasks, h, hu]]
        simp only [List.mem_cons, ih, Prod.mk.injEq]
        constructor
        · rintro (⟨h1, h2⟩ | ⟨h1, h2, h3⟩)
          · subst h1
            subst h2
            exact ⟨Or.inl rfl, h, hu⟩
          · exact ⟨Or.inr h1, h2, h3⟩
        · rintro ⟨h1 | h1, h2, h3⟩
          · subst h1
            rw [h] at h2
            injection h2 with h2
            exact Or.inl ⟨rfl, h2.symm⟩
          · exact Or.inr ⟨h1, h2, h3⟩

/-- Membership of the warned targets: a target is warned iff it was selected
and the manifest has no URL (or an empty one) for it. -/
lemma mem_yieldWarnings (M : List (String × String)) (w : String) :
    ∀ ts, w ∈ yieldWarnings M ts ↔
      w ∈ ts ∧ (List.lookup w M = none ∨ List.lookup w M = some "") := by
  intro ts
  induction ts with
  | nil => simp [yieldWarnings]
  | cons t rest ih =>
    cases h : List.lookup t M with
    | none =>
      rw [show yieldWarnings M (t :: rest) = t :: yieldWarnings M rest from by
        simp [yieldWarnings, h]]
      simp only [List.mem_cons, ih]
      constructor
      · rintro (h1 | ⟨h1, h2⟩)
        · subst h1
          exact ⟨Or.inl rfl, Or.inl h⟩
        · exact ⟨Or.inr h1, h2⟩
      · rintro ⟨h1 | h1, h2⟩
        · exact Or.inl h1
        · exact Or.inr ⟨h1, h2⟩
    | some url =>
      by_cases hu : url = ""
      · rw [show yieldWarnings M (t :: rest) = t :: yieldWarnings M rest from by
          simp [yieldWarnings, h, hu]]
        simp only [List.mem_cons, ih]
        constructor
        · rintro (h1 | ⟨h1, h2⟩)
          · subst h1
            refine ⟨Or.inl rfl, Or.inr ?_⟩
            rw [h, hu]
          · exact ⟨Or.inr h1, h2⟩
        · rintro ⟨h1 | h1, h2⟩
          · exact Or.inl h1
          · exact Or.inr ⟨h1, h2⟩
      · rw [show yieldWarnings M (t :: rest) = yieldWarnings M rest from by
          simp [yieldWarnings, h, hu]]
        rw [ih]
        simp only [List.mem_cons]
        constructor
        · rintro ⟨h1, h2⟩
          exact ⟨Or.inr h1, h2⟩
        · rintro ⟨h1 | h1, h2⟩
          · subst h1
            rw [h] at h2
            rcases h2 with h2 | h2
            · exact Option.noConfusion h2
            · injection h2 with h2
              exact absurd h2 hu
          · exact ⟨h1, h2⟩

/-- An association-list lookup fails exactly when the key is absent. -/
lemma lookup_eq_none_iff (M : List (String × String)) (k : String) :
    List.lookup k M = none ↔ k ∉ M.map Prod.fst := by
  induction M with
  | nil => simp
  | cons p rest ih =>
    obtain ⟨a, b⟩ := p
    by_cases hk : k = a
    · subst hk
      simp [List.lookup]
    · have hbeq : (k == a) = false := beq_eq_false_iff_ne.mpr hk
      simp [List.lookup, hbeq, ih, hk]

/-- With unique keys, an association-list lookup returns a value exactly when
the pair is in the list. -/
lemma lookup_eq_some_iff (M : List (String × String))
    (hnd : (M.map Prod.fst).Nodup) (k u : String) :
    List.lookup k M = some u ↔ (k, u) ∈ M := by
  induction M with
  | nil => simp
  | cons p rest ih =>
    obtain ⟨a, b⟩ := p
    simp only [List.map_cons, List.nodup_cons] at hnd
    by_cases hk : k = a
    · subst hk
      simp only [List.lookup, beq_self_eq_true, List.mem_cons, Prod.mk.injEq, true_and]
      constructor
      · intro h
        cases h
        exact Or.inl rfl
      · rintro (h | h)
        · rw [h]
        · exact absurd (List.mem_map.mpr ⟨(k, u), h, rfl⟩) hnd.1
    · have hbeq : (k == a) = false := beq_eq_false_iff_ne.mpr hk
      simp [List.lookup, hbeq, ih hnd.2, hk, Prod.mk.injEq]

/-- In manifest-driven mode (no retry file, or one whose stripped lines are
all blank) the selected identifiers are the sorted `.tar` manifest keys. -/
lemma to_downloads_all_eq (M : List (String × String))
    (retry_file : Option (List String))
    (h : retry_file = none ∨ ∃ lines, retry_file = some lines ∧ cleanLines lines = []) :
    to_downloads retry_file M = to_downloads none M := by
  rcases h with h | ⟨lines, h, hclean⟩
  · rw [h]
  · rw [h]
    simp [to_downloads, hclean]

/-- In manifest-driven mode, when every manifest key ends in `.tar`, the
selected identifiers are exactly the manifest keys. -/
lemma mem_to_downloads_all (M : List (String × String))
    (hkeys : ∀ k ∈ M.map Prod.fst, pyEndsWith k ".tar" = true) (k : String) :
    k ∈ to_downloads none M ↔ k ∈ M.map Prod.fst := by
  simp only [to_downloads, List.mem_filter,
    List.mem_insertionSort (fun a b => pyLE a b = true)]
  constructor
  · rintro ⟨h1, _⟩
    exact h1
  · intro h1
    exact ⟨h1, hkeys k h1⟩

/-- The manifest-driven selection has no duplicates when the manifest keys are
unique. -/
lemma nodup_to_downloads_all (M : List (String × String))
    (hnd : (M.map Prod.fst).Nodup) : (to_downloads none M).Nodup :=
  ((List.perm_insertionSort (fun a b => pyLE a b = true)
    (M.map Prod.fst)).nodup_iff.mpr hnd).filter _

/-- The manifest-driven selection is sorted in code-point order. -/
lemma pairwise_to_downloads_all (M : List (String × String)) :
    (to_downloads none M).Pairwise (fun a b => pyLE a b = true) :=
  (List.sorted_insertionSort (fun a b => pyLE a b = true)
    (M.map Prod.fst)).filter _

/-- C1: for a 200/206 response with a known total size, the fetch raises
(returns a `failed` outcome) exactly when the final on-disk size is strictly
below the total size, and returns `completed` whenever the final size reaches
it (downloader.py lines 76-81). -/
theorem C1_failed_iff_size_short (response : HttpResponse) (file : List Nat) (cl : Nat)
    (hst : response.status = 200 ∨ response.status = 206)
    (hcl : response.contentLength = some cl) :
    ((∃ r, (download_file_response response file).1 = Outcome.failed r) ↔
      (download_file_response response file).2.length < cl + file.length)
  ∧ (cl + file.length ≤ (download_file_response response file).2.length →
      (download_file_response response file).1 = Outcome.completed) := by
  have hsnd := snd_download_file_response_ok response file hst
  unfold download_file_response at hsnd ⊢
  rw [if_pos hst] at hsnd ⊢
  simp only [total_size_code, hcl, Option.map_some'] at hsnd ⊢
  by_cases hle : cl + file.length ≤ (streamBody response file).length
  · rw [if_pos hle] at hsnd ⊢
    refine ⟨⟨?_, ?_⟩, fun _ => rfl⟩
    · rintro ⟨r, hr⟩
      simp at hr
    · intro hlt
      rw [hsnd] at hlt
      omega
  · rw [if_neg hle] at hsnd ⊢
    refine ⟨⟨?_, ?_⟩, ?_⟩
    · intro _
      rw [hsnd]
      omega
    · intro _
      exact ⟨"Unexcepted exit", rfl⟩
    · intro hge
      rw [hsnd] at hge
      exact absurd hge hle

/-- C1 witness: a 200 response declaring 2 bytes, streamed in full onto an
empty file, is classified `completed`. -/
theorem C1_witness :
    (download_file_response { status := 200, contentLength := some 2, chunks := [[9, 9]] }
      []).1 = Outcome.completed :=
  (C1_failed_iff_size_short { status := 200, contentLength := some 2, chunks := [[9, 9]] }
    [] 2 (Or.inl rfl) rfl).2 (by decide)

/-- C2: with `max_retries = 10` and `backoff_factor = 0.5` the retry loop
makes at most 11 attempts in total, stops right after the first successful
attempt, and the sleep before attempt n+1 is `0.5 * 2 ^ (n-1)` seconds — the
i-th recorded sleep (0-indexed) is `0.5 * 2 ^ i`, i.e. 0.5s, 1.0s, 2.0s, ...
(downloader.py lines 171-186). -/
theorem C2_retry_backoff_schedule (o : Nat → AttemptResult) :
    (download_task o 10 (1/2)).attempts ≤ 10 + 1
  ∧ (∀ k, k ≤ 10 → o k = AttemptResult.success →
      (∀ j, j < k → o j = AttemptResult.failure) →
      (download_task o 10 (1/2)).attempts = k + 1
        ∧ (download_task o 10 (1/2)).succeeded = true)
  ∧ (∀ i (h : i < (download_task o 10 (1/2)).sleeps.length),
      (download_task o 10 (1/2)).sleeps.get ⟨i, h⟩ = (1/2 : ℚ) * 2 ^ i) := by
  refine ⟨download_task_go_attempts_le o (1/2) 10 0, ?_, ?_⟩
  · intro k hk hs hf
    exact download_task_go_first_success o (1/2) 10 0 k hk (by simpa using hs)
      (by intro j hj; simpa using hf j hj)
  · intro i h
    have hq := download_task_go_sleeps_get? o (1/2) 10 0 i h
    rw [show (download_task_go o (1/2) 0 10).sleeps.get? i
          = (download_task o 10 (1/2)).sleeps.get? i from rfl,
        List.get?_eq_get h] at hq
    have := Option.some.inj hq
    simpa using this

/-- C2 witness: when the third attempt is the first success, the loop makes
exactly 3 attempts, succeeds, and slept 0.5s then 1.0s. -/
theorem C2_witness :
    (download_task (fun j => if j = 2 then AttemptResult.success else AttemptResult.failure)
      10 (1/2)).attempts = 2 + 1
  ∧ (download_task (fun j => if j = 2 then AttemptResult.success else AttemptResult.failure)
      10 (1/2)).succeeded = true :=
  (C2_retry_backoff_schedule
      (fun j => if j = 2 then AttemptResult.success else AttemptResult.failure)).2.1
    2 (by decide) (by decide) (by decide)

/-- C3 counterexample: a 200 response with `Content-Length: 5` arriving on a
file that already holds 1 byte.  The code adds `current_size` and demands 6
final bytes, so a 4-byte body yields a raise; under the claim's reading (no
addition for 200) the same fetch would be `completed`. -/
theorem C3_counterexample :
    (download_file_response { status := 200, contentLength := some 5, chunks := [[1, 2, 3, 4]] }
      [7]).1 = Outcome.failed "Unexcepted exit"
  ∧ (download_file_claimed { status := 200, contentLength := some 5, chunks := [[1, 2, 3, 4]] }
      [7]).1 = Outcome.completed
  ∧ total_size_code (some 5) 1 = some 6
  ∧ total_size_claimed 200 (some 5) 1 = some 5 := by
  refine ⟨by decide, by decide, by decide, by decide⟩

/-- C3 amended: whenever the `Content-Length` header is present the script
computes `total_size` as the declared length plus `current_size`, for 200 and
206 responses alike — a 200 response is processed exactly like a 206 one. -/
theorem C3_amended_total_size (response : HttpResponse) (file : List Nat)
    (h : response.status = 200) :
    download_file_response response file
      = download_file_response { response with status := 206 } file
  ∧ ∀ cl cs : Nat, total_size_code (some cl) cs = some (cl + cs) := by
  constructor
  · unfold download_file_response
    rw [h]
    rfl
  · intro cl cs
    rfl

/-- C3 amended witness: a concrete 200 response is processed identically to
the same response with status 206. -/
theorem C3_amended_witness :
    download_file_response { status := 200, contentLength := some 1, chunks := [[4]] } []
      = download_file_response { status := 206, contentLength := some 1, chunks := [[4]] } [] :=
  (C3_amended_total_size { status := 200, contentLength := some 1, chunks := [[4]] } [] rfl).1

/-- C4 counterexample: a manifest with the single target `b.tar` and a retry
file listing `b.tar` twice make `iterate_retry` yield the same target twice —
the work sequence does not have at most one entry per target identifier. -/
theorem C4_counterexample_duplicate_lines :
    iterate_retry (some ["b.tar", "b.tar"]) [("b.tar", "u")]
      = [("b.tar", "u"), ("b.tar", "u")]
  ∧ ¬ ((iterate_retry (some ["b.tar", "b.tar"]) [("b.tar", "u")]).map Prod.fst).Nodup := by
  exact ⟨by decide, by decide⟩

/-- C4 amended: the resolved work sequence has at most one entry per target
identifier whenever the retry selection (once stripped of blank lines) has no
repeated identifiers — in particular always in manifest-driven mode, the
manifest keys being unique; a retry file with repeated lines instead yields
one entry per repetition. -/
theorem C4_amended_unique_targets (M : List (String × String))
    (retry_file : Option (List String))
    (hnd : (M.map Prod.fst).Nodup)
    (hlines : ∀ lines, retry_file = some lines → (cleanLines lines).Nodup) :
    ((iterate_retry retry_file M).map Prod.fst).Nodup := by
  have hsub := yieldTasks_map_fst_sublist M (to_downloads retry_file M)
  refine List.Nodup.sublist hsub ?_
  cases retry_file with
  | none => exact nodup_to_downloads_all M hnd
  | some lines =>
    by_cases hclean : cleanLines lines = []
    · rw [to_downloads_all_eq M (some lines) (Or.inr ⟨lines, rfl, hclean⟩)]
      exact nodup_to_downloads_all M hnd
    · simp only [to_downloads, if_neg hclean]
      exact hlines lines rfl

/-- C4 amended witness: a one-target manifest with no retry file resolves to a
duplicate-free work sequence. -/
theorem C4_witness :
    ((iterate_retry none [("a.tar", "u")]).map Prod.fst).Nodup :=
  C4_amended_unique_targets [("a.tar", "u")] none (by decide)
    (fun _ h => by cases h)

/-- C5 counterexample: with no retry file, a manifest target whose URL is the
empty string is dropped from the work set (Python's `if url:` treats the empty
URL as falsy), so the work set is not all manifest targets. -/
theorem C5_counterexample_empty_url :
    iterate_retry none [("a.tar", ""), ("b.tar", "u")] = [("b.tar", "u")]
  ∧ "a.tar" ∈ ([("a.tar", ""), ("b.tar", "u")].map Prod.fst)
  ∧ ("a.tar", "") ∉ iterate_retry none [("a.tar", ""), ("b.tar", "u")] := by
  exact ⟨by decide, by decide, by decide⟩

/-- C5 amended: assuming unique manifest keys all ending in `.tar`, the
resolved work set is: in manifest-driven mode (retry file absent, or only
blank lines), exactly the manifest pairs with a non-empty URL, with the
targets in sorted code-point order; in retry mode, a subsequence of the listed
identifiers in the order given, containing exactly the listed identifiers
whose manifest URL exists and is non-empty, each paired with that URL, while a
listed identifier absent from the manifest is warned about and produces no
task. -/
theorem C5_amended_selection (M : List (String × String))
    (retry_file : Option (List String))
    (hkeys : ∀ k ∈ M.map Prod.fst, pyEndsWith k ".tar" = true)
    (hnd : (M.map Prod.fst).Nodup) :
    ((retry_file = none ∨ ∃ lines, retry_file = some lines ∧ cleanLines lines = []) →
      ((iterate_retry retry_file M).map Prod.fst).Pairwise (fun a b => pyLE a b = true)
      ∧ (∀ k u, (k, u) ∈ iterate_retry retry_file M ↔ (k, u) ∈ M ∧ u ≠ ""))
  ∧ (∀ lines, retry_file = some lines → cleanLines lines ≠ [] →
      List.Sublist ((iterate_retry retry_file M).map Prod.fst) (cleanLines lines)
      ∧ (∀ k u, (k, u) ∈ iterate_retry retry_file M ↔
          k ∈ cleanLines lines ∧ (k, u) ∈ M ∧ u ≠ "")
      ∧ (∀ t, t ∈ cleanLines lines → t ∉ M.map Prod.fst →
          t ∈ iterate_retry_warnings retry_file M
            ∧ t ∉ (iterate_retry retry_file M).map Prod.fst)) := by
  constructor
  · intro hall
    have heq : to_downloads retry_file M = to_downloads none M :=
      to_downloads_all_eq M retry_file hall
    constructor
    · refine List.Pairwise.sublist ?_ (pairwise_to_downloads_all M)
      rw [show iterate_retry retry_file M = yieldTasks M (to_downloads none M) from by
        rw [iterate_retry, heq]]
      exact yieldTasks_map_fst_sublist M (to_downloads none M)
    · intro k u
      rw [iterate_retry, heq, mem_yieldTasks M k u (to_downloads none M)]
      constructor
      · rintro ⟨_, h2, h3⟩
        exact ⟨(lookup_eq_some_iff M hnd k u).mp h2, h3⟩
      · rintro ⟨h1, h2⟩
        have hlk := (lookup_eq_some_iff M hnd k u).mpr h1
        refine ⟨?_, hlk, h2⟩
        rw [mem_to_downloads_all M hkeys k]
        exact List.mem_map.mpr ⟨(k, u), h1, rfl⟩
  · intro lines hl hne
    have htd : to_downloads retry_file M = cleanLines lines := by
      rw [hl]
      simp [to_downloads, hne]
    refine ⟨?_, ?_, ?_⟩
    · rw [iterate_retry, htd]
      exact yieldTasks_map_fst_sublist M (cleanLines lines)
    · intro k u
      rw [iterate_retry, htd, mem_yieldTasks M k u (cleanLines lines)]
      rw [lookup_eq_some_iff M hnd k u]
    · intro t ht hab
      have hlook : List.lookup t M = none := (lookup_eq_none_iff M t).mpr hab
      constructor
      · rw [iterate_retry_warnings, htd, mem_yieldWarnings M t (cleanLines lines)]
        exact ⟨ht, Or.inl hlook⟩
      · intro hmem
        rw [iterate_retry, htd] at hmem
        obtain ⟨⟨k, u⟩, hku, hfst⟩ := List.mem_map.mp hmem
        rw [mem_yieldTasks M k u (cleanLines lines)] at hku
        cases hfst
        rw [hlook] at hku
        exact absurd hku.2.1 (by simp)

/-- C5 amended witness: on a two-target manifest with no retry file the work
set is sorted and contains each manifest pair with non-empty URL. -/
theorem C5_witness :
    ((iterate_retry none [("b.tar", "ub"), ("a.tar", "ua")]).map Prod.fst).Pairwise
      (fun a b => pyLE a b = true)
  ∧ (("a.tar", "ua") ∈ iterate_retry none [("b.tar", "ub"), ("a.tar", "ua")] ↔
      ("a.tar", "ua") ∈ [("b.tar", "ub"), ("a.tar", "ua")] ∧ "ua" ≠ "") := by
  have h := (C5_amended_selection [("b.tar", "ub"), ("a.tar", "ua")] none
    (by decide) (by decide)).1 (Or.inl rfl)
  exact ⟨h.1, h.2 "a.tar" "ua"⟩

/-- C6: a 200/206 response with no `Content-Length` header whose stream is
processed to the end is always classified `completed`, regardless of how many
bytes arrived (downloader.py lines 52-56 and 77-79). -/
theorem C6_unknown_length_completed (response : HttpResponse) (file : List Nat)
    (hst : response.status = 200 ∨ response.status = 206)
    (hcl : response.contentLength = none) :
    (download_file_response response file).1 = Outcome.completed := by
  unfold download_file_response
  rw [if_pos hst]
  simp only [total_size_code, hcl, Option.map_none']

/-- C6 witness: a 206 response with no declared length and a single streamed
byte is `completed`. -/
theorem C6_witness :
    (download_file_response { status := 206, contentLength := none, chunks := [[1]] }
      [2]).1 = Outcome.completed :=
  C6_unknown_length_completed { status := 206, contentLength := none, chunks := [[1]] }
    [2] (Or.inr rfl) rfl

/-- C7: a target whose every attempt within the budget fails is appended to
the failure log exactly once, the loop reports no success, and it made the
full `max_retries + 1` attempts before giving up (downloader.py lines
176-186). -/
theorem C7_exhaustion_logs_once (o : Nat → AttemptResult) (max_retries : Nat)
    (backoff_factor : ℚ)
    (h : ∀ j, j ≤ max_retries → o j = AttemptResult.failure) :
    (download_task o max_retries backoff_factor).logAppends = 1
  ∧ (download_task o max_retries backoff_factor).succeeded = false
  ∧ (download_task o max_retries backoff_factor).attempts = max_retries + 1 := by
  have := download_task_go_all_fail o backoff_factor max_retries 0
    (by intro j hj; exact h j (by omega))
  exact ⟨this.2.1, this.2.2, this.1⟩

/-- C7 witness: with a 2-retry budget and every attempt failing, the failure
log gets exactly one append. -/
theorem C7_witness :
    (download_task (fun _ => AttemptResult.failure) 2 (1/2)).logAppends = 1
  ∧ (download_task (fun _ => AttemptResult.failure) 2 (1/2)).succeeded = false
  ∧ (download_task (fun _ => AttemptResult.failure) 2 (1/2)).attempts = 2 + 1 :=
  C7_exhaustion_logs_once (fun _ => AttemptResult.failure) 2 (1/2)
    (fun _ _ => rfl)

/-- C8: a 416 response yields the `alreadyComplete` outcome and leaves the
local file untouched — same contents, same length (downloader.py lines
82-83). -/
theorem C8_already_complete_frame (response : HttpResponse) (file : List Nat)
    (h : response.status = 416) :
    (download_file_response response file).1 = Outcome.alreadyComplete
  ∧ (download_file_response response file).2 = file
  ∧ (download_file_response response file).2.length = file.length := by
  unfold download_file_response
  rw [h]
  exact ⟨rfl, rfl, rfl⟩

/-- C8 witness: a 416 response on a 2-byte file returns `alreadyComplete` and
keeps the file. -/
theorem C8_witness :
    (download_file_response { status := 416, contentLength := none, chunks := [] }
      [1, 2]).1 = Outcome.alreadyComplete
  ∧ (download_file_response { status := 416, contentLength := none, chunks := [] }
      [1, 2]).2 = [1, 2] :=
  ⟨(C8_already_complete_frame { status := 416, contentLength := none, chunks := [] }
      [1, 2] rfl).1,
   (C8_already_complete_frame { status := 416, contentLength := none, chunks := [] }
      [1, 2] rfl).2.1⟩


/-- C9: a fetch on a non-empty file sends a range header starting at
`current_size` and opens the file in append mode; the range header is absent
and the mode is write exactly when `current_size = 0`; and the fetch only ever
extends a non-empty file (downloader.py lines 40-49 and 70-74). -/
theorem C9_range_append_no_truncate (response : HttpResponse) (file : List Nat)
    (h : file ≠ []) :
    mkHeaders file.length = some file.length
  ∧ openMode file.length = FileMode.ab
  ∧ (∀ cs : Nat, (mkHeaders cs = none ↔ cs = 0) ∧ (openMode cs = FileMode.wb ↔ cs = 0))
  ∧ (∃ rest, (download_file_response response file).2 = file ++ rest) := by
  have hpos : 0 < file.length := List.length_pos.mpr h
  refine ⟨?_, ?_, ?_, ?_⟩
  · unfold mkHeaders
    rw [if_pos hpos]
  · unfold openMode
    rw [if_pos hpos]
  · intro cs
    cases cs with
    | zero => exact ⟨by simp [mkHeaders], by simp [openMode]⟩
    | succ n =>
      refine ⟨?_, ?_⟩ <;> simp [mkHeaders, openMode]
  · by_cases hok : response.status = 200 ∨ response.status = 206
    · refine ⟨(response.chunks.filter (fun c => c ≠ [])).flatten, ?_⟩
      rw [snd_download_file_response_ok response file hok]
      unfold streamBody
      rw [show openMode file.length = FileMode.ab from by unfold openMode; rw [if_pos hpos]]
      rfl
    · unfold download_file_response
      rw [if_neg hok]
      by_cases h416 : response.status = 416
      · rw [if_pos h416]
        exact ⟨[], (List.append_nil file).symm⟩
      · rw [if_neg h416]
        exact ⟨[], (List.append_nil file).symm⟩

/-- C9 witness: on the 1-byte file `[5]` a 200 fetch ranges from offset 1,
appends, and extends the file. -/
theorem C9_witness :
    mkHeaders ([5] : List Nat).length = some ([5] : List Nat).length
  ∧ openMode ([5] : List Nat).length = FileMode.ab
  ∧ (∀ cs : Nat, (mkHeaders cs = none ↔ cs = 0) ∧ (openMode cs = FileMode.wb ↔ cs = 0))
  ∧ (∃ rest, (download_file_response { status := 200, contentLength := some 1, chunks := [[3]] }
        [5]).2 = [5] ++ rest) :=
  C9_range_append_no_truncate { status := 200, contentLength := some 1, chunks := [[3]] }
    [5] (by decide)

/-- C10: for every sequence of per-attempt outcomes, every retry budget and
every backoff factor, `download_task` returns normally — the explicit
exception-propagating version of the loop always yields `ok`, never an
escaping exception (downloader.py lines 172-186: the try/except catches every
exception from `download_file` and each handler branch breaks or continues
instead of re-raising). -/
theorem C10_no_exception_escapes (o : Nat → AttemptResult) (max_retries : Nat)
    (backoff_factor : ℚ) :
    download_task_exc o backoff_factor 0 max_retries
      = Except.ok (download_task o max_retries backoff_factor) :=
  download_task_exc_ok o backoff_factor max_retries 0

end Downloader
